import Mathlib

/-!
# FitnessPr backend — verified shallow embedding

A shallow embedding of the parts of the FitnessPr backend
(`backend/app`) that the specification's claims are about:

* the credential store and the auth endpoints (`register`, `login`,
  `get_current_user`) from `api/v1/endpoints/auth.py` and
  `services/user_service.py`;
* the client read endpoint from `api/v1/endpoints/clients.py`;
* `WorkoutLogService.get_workout_stats`, `GoalService.mark_goal_achieved`
  and `GoalService.get_overdue_goals` from `services/progress_service.py`;
* `PaymentMethodService` from `services/payment_service.py`;
* `MealPlanService.get_client_active_plan` from `services/meal_service.py`.

Database tables are lists of rows; timestamps are integers (for
`get_workout_stats` one unit is one day, matching `timedelta(days=days)`);
SQL `NULL` is `Option.none`; Python/SQL floats arising from division are
rationals.  SQLAlchemy queries are list filters; a comparison against an
SQL `NULL` column value is three-valued and filters the row out, which the
`sql*` helpers reproduce.
-/

namespace FitnessPr

/-- SQL comparison `col <= v` on a nullable column: `NULL <= v` is unknown,
so the row does not match. -/
def sqlLe (a : Option Int) (b : Int) : Bool :=
  match a with
  | some x => decide (x ≤ b)
  | none => false

/-- SQL comparison `col >= v` on a nullable column. -/
def sqlGe (a : Option Int) (b : Int) : Bool :=
  match a with
  | some x => decide (b ≤ x)
  | none => false

/-- SQL comparison `col < v` on a nullable column. -/
def sqlLt (a : Option Int) (b : Int) : Bool :=
  match a with
  | some x => decide (x < b)
  | none => false

/-- The Python expression `SomeModel.column is True` as it appears in several
query filters of the source (`WorkoutLog.completed is True`,
`PaymentMethod.is_active is True`, `MealPlan.is_active is True`, ...).
At class level the attribute is a SQLAlchemy `Column` object, which is never
the same Python object as the literal `True`, so the identity test evaluates
to the Python constant `False` before the query is built, and SQLAlchemy
coerces that constant into the SQL clause `false`. -/
def column_is_True : Bool := false

/-- The Python expression `SomeModel.column is False`
(`Goal.is_achieved is False`): the identity test against a `Column` object
likewise evaluates to the constant `False`. -/
def column_is_False : Bool := false

/-- Outcome of an HTTP endpoint: either a value or a raised
`HTTPException(status_code, detail)`. -/
inductive ApiResult (α : Type) where
  | ok : α → ApiResult α
  | error : Nat → String → ApiResult α
deriving DecidableEq, Repr

/-! ## Data model (`app/models`) -/

/-- `app/models/user.py` — the credential store row.  Field defaults mirror
the column defaults (`is_active=True`, `is_superuser=False`,
`is_trainer=False`); `full_name` is a nullable column. -/
structure User where
  id : Nat
  email : String
  hashed_password : String
  full_name : Option String := none
  is_active : Bool := true
  is_superuser : Bool := false
  is_trainer : Bool := false
deriving DecidableEq, Repr

/-- `app/models/trainer.py` — only the fields the claims touch: the primary
key and the 1:1 owning user. -/
structure Trainer where
  id : Nat
  user_id : Nat
deriving DecidableEq, Repr

/-- `app/models/client.py` — `user_id` and `trainer_id` are nullable foreign
keys; `is_active` defaults to `True`.  Free-text/demographic columns are
nullable with no default. -/
structure Client where
  id : Nat
  user_id : Option Nat := none
  trainer_id : Option Nat := none
  age : Option Nat := none
  gender : Option String := none
  fitness_level : Option String := none
  goals : Option String := none
  is_active : Bool := true
deriving DecidableEq, Repr

/-- `app/models/progress.py`, `class WorkoutLog` — a dated session record.
`duration_minutes` and `calories_burned` are nullable integer columns;
`completed` defaults to `False`. -/
structure WorkoutLog where
  id : Nat
  client_id : Option Nat := none
  program_id : Option Nat := none
  trainer_id : Option Nat := none
  date : Option Int := none
  duration_minutes : Option Int := none
  calories_burned : Option Int := none
  notes : Option String := none
  completed : Bool := false
deriving DecidableEq, Repr

/-- `app/models/progress.py`, `class Goal` — target metric with an achieved
flag; `target_value`/`current_value` are nullable floats (rationals here),
`is_achieved` defaults to `False` and `is_active` to `True`. -/
structure Goal where
  id : Nat
  client_id : Option Nat := none
  trainer_id : Option Nat := none
  title : String
  description : Option String := none
  target_value : Option ℚ := none
  current_value : Option ℚ := none
  unit : Option String := none
  target_date : Option Int := none
  achieved_date : Option Int := none
  is_achieved : Bool := false
  is_active : Bool := true
deriving DecidableEq, Repr

/-- `app/models/payment.py`, `class PaymentMethod` — stored card/bank
reference; `is_default` defaults to `False`, `is_active` to `True`. -/
structure PaymentMethod where
  id : Nat
  client_id : Option Nat := none
  stripe_payment_method_id : Option String := none
  type : Option String := none
  card_brand : Option String := none
  card_last_four : Option String := none
  card_exp_month : Option Nat := none
  card_exp_year : Option Nat := none
  is_default : Bool := false
  is_active : Bool := true
deriving DecidableEq, Repr

/-- `app/models/meal.py`, `class MealPlan` — dated plan for a client;
`start_date`/`end_date` are nullable datetimes, `is_active` defaults to
`True`. -/
structure MealPlan where
  id : Nat
  name : String
  trainer_id : Option Nat := none
  client_id : Option Nat := none
  start_date : Option Int := none
  end_date : Option Int := none
  target_calories : Option ℚ := none
  is_active : Bool := true
deriving DecidableEq, Repr

/-! ## Password hashing (external collaborator) -/

/-- Modelled from the spec: the password-hashing primitive (bcrypt, from the
missing `app/core/security.py`) is declared an out-of-scope external
collaborator that "stores password through an irreversible, salted one-way
hash"; it is modelled as an injective tagging function. -/
def get_password_hash (password : String) : String :=
  "bcrypt-hash:" ++ password

/-- Modelled from the spec: verifying a plain password against a stored
hash, inverse check of `get_password_hash`. -/
def verify_password (plain hashed : String) : Bool :=
  hashed == get_password_hash plain

/-! ## `services/user_service.py` -/

namespace UserService

/-- `UserService.get_by_email`: first row whose `email` column equals the
argument — exact, case-sensitive string equality. -/
def get_by_email (users : List User) (email : String) : Option User :=
  users.find? (fun u => u.email == email)

/-- Registration payload (`app/schemas/auth.py`, `UserRegister`). -/
structure UserRegister where
  email : String
  password : String
  full_name : String
  is_trainer : Bool := false
deriving DecidableEq, Repr

/-- `UserService.create`: hash the password, build the row with the
schema's role flags, insert and return it.  The autoincrement primary key
is modelled as one past the current table size. -/
def create (users : List User) (user_in : UserRegister) : List User × User :=
  let db_user : User :=
    { id := users.length + 1
      email := user_in.email
      hashed_password := get_password_hash user_in.password
      full_name := some user_in.full_name
      is_superuser := false
      is_trainer := user_in.is_trainer }
  (users ++ [db_user], db_user)

/-- `UserService.authenticate`: resolve the email, then check the password
against the stored hash; `None` on unknown email or mismatch. -/
def authenticate (users : List User) (email password : String) : Option User :=
  match get_by_email users email with
  | none => none
  | some user =>
      if verify_password password user.hashed_password then some user else none

end UserService

/-! ## `api/v1/endpoints/auth.py` -/

/-- `get_current_user`: the endpoint receives `security.verify_token token`
(the JWT primitive lives in the missing `app/core/security.py`; per the spec
it yields the token's subject email when signature and expiry check out, and
`None` otherwise — that result is the `token_subject` argument).  A `None`
subject or an email that no longer resolves raises 401; otherwise the full
account record is returned.  No `is_active` check is performed here. -/
def get_current_user (users : List User) (token_subject : Option String) :
    ApiResult User :=
  match token_subject with
  | none => ApiResult.error 401 "Could not validate credentials"
  | some username =>
      match UserService.get_by_email users username with
      | none => ApiResult.error 401 "Could not validate credentials"
      | some user => ApiResult.ok user

/-- `register` endpoint: 400 if a user with exactly this email exists
(nothing is written), otherwise create the account.  Returns the table
after the call together with the endpoint outcome. -/
def register (users : List User) (user_in : UserService.UserRegister) :
    List User × ApiResult User :=
  match UserService.get_by_email users user_in.email with
  | some _ => (users, ApiResult.error 400 "User with this email already exists")
  | none =>
      let created := UserService.create users user_in
      (created.1, ApiResult.ok created.2)

/-- `login` endpoint: authenticate; 401 on unknown email or bad password,
400 "Inactive user" when the resolved account is inactive, otherwise a
bearer token whose subject is the account email (`create_access_token`
from the missing `app/core/security.py` is modelled by its subject, per
the spec: "a signed, time-limited bearer token whose subject is the
account email"). -/
def login (users : List User) (username password : String) : ApiResult String :=
  match UserService.authenticate users username password with
  | none => ApiResult.error 401 "Incorrect email or password"
  | some user =>
      if !user.is_active then ApiResult.error 400 "Inactive user"
      else ApiResult.ok user.email

/-! ## `api/v1/endpoints/clients.py` -/

/-- The ORM relationship `current_user.trainer` (1:1 backref from
`app/models/trainer.py`): the trainer row owned by this user, if any. -/
def user_trainer (trainers : List Trainer) (u : User) : Option Trainer :=
  trainers.find? (fun t => t.user_id == u.id)

/-- `ClientService.get`: first client row with the given primary key. -/
def ClientService_get (clients : List Client) (client_id : Nat) : Option Client :=
  clients.find? (fun c => c.id == client_id)

/-- `read_client` endpoint: 404 when the id resolves to no row; for a
trainer caller, 403 unless `client.trainer_id` equals the caller's trainer
id (`current_user.trainer.id if current_user.trainer else None`); for a
non-trainer caller, 403 unless `client.user_id` equals the caller's user
id; otherwise the client row. -/
def read_client (clients : List Client) (trainers : List Trainer)
    (current_user : User) (client_id : Nat) : ApiResult Client :=
  match ClientService_get clients client_id with
  | none => ApiResult.error 404 "Client not found"
  | some client =>
      if current_user.is_trainer then
        let trainer_id := (user_trainer trainers current_user).map Trainer.id
        if client.trainer_id ≠ trainer_id then
          ApiResult.error 403 "Access denied"
        else ApiResult.ok client
      else
        if client.user_id ≠ some current_user.id then
          ApiResult.error 403 "Access denied"
        else ApiResult.ok client

/-! ## `services/progress_service.py` -/

namespace WorkoutLogService

/-- The result dictionary of `get_workout_stats`.  The two division
results are Python floats, modelled as rationals. -/
structure WorkoutStats where
  total_workouts : Nat
  total_duration_minutes : Int
  total_calories_burned : Int
  average_duration : ℚ
  workouts_per_week : ℚ
deriving DecidableEq, Repr

/-- `WorkoutLogService.get_workout_stats`: `start_date = now - timedelta
(days=days)` (one time unit = one day here); the query filters on
`client_id`, `date >= start_date` and `WorkoutLog.completed is True` —
the last conjunct being the constant `False` identity test
(`column_is_True`).  Sums treat missing values as 0 (`w.x or 0`), the
average is guarded by `count > 0` and the weekly rate by `days > 0`. -/
def get_workout_stats (db : List WorkoutLog) (client_id : Nat) (days : Nat)
    (now : Int) : WorkoutStats :=
  let start_date : Int := now - (days : Int)
  let workouts := db.filter (fun w =>
    w.client_id == some client_id && sqlGe w.date start_date && column_is_True)
  let total_workouts := workouts.length
  let total_duration := (workouts.map (fun w => w.duration_minutes.getD 0)).sum
  let total_calories := (workouts.map (fun w => w.calories_burned.getD 0)).sum
  { total_workouts := total_workouts
    total_duration_minutes := total_duration
    total_calories_burned := total_calories
    average_duration :=
      if total_workouts > 0 then (total_duration : ℚ) / (total_workouts : ℚ) else 0
    workouts_per_week :=
      if days > 0 then ((total_workouts : ℚ) / (days : ℚ)) * 7 else 0 }

end WorkoutLogService

namespace GoalService

/-- `GoalService.get`: first goal row with the given primary key. -/
def get (db : List Goal) (id : Nat) : Option Goal :=
  db.find? (fun g => g.id == id)

/-- `GoalService.mark_goal_achieved`: look the goal up; when found, set
`is_achieved = True`, stamp `achieved_date = datetime.utcnow()` (the `now`
argument) and commit; when absent, do nothing.  Returns the table after
the call and the returned goal (`None` when absent).  The in-place ORM
mutation updates the row with this primary key. -/
def mark_goal_achieved (db : List Goal) (goal_id : Nat) (now : Int) :
    List Goal × Option Goal :=
  match get db goal_id with
  | none => (db, none)
  | some goal =>
      let goal' := { goal with is_achieved := true, achieved_date := some now }
      (db.map (fun g =>
        if g.id == goal_id then
          { g with is_achieved := true, achieved_date := some now }
        else g),
       some goal')

/-- `GoalService.get_overdue_goals`: the query filters on `client_id`,
`target_date < now`, `Goal.is_achieved is False` and
`Goal.is_active is True` — the last two conjuncts being constant-`False`
identity tests (`column_is_False`, `column_is_True`). -/
def get_overdue_goals (db : List Goal) (client_id : Nat) (now : Int) :
    List Goal :=
  db.filter (fun g =>
    g.client_id == some client_id && sqlLt g.target_date now &&
      column_is_False && column_is_True)

end GoalService

/-! ## `services/payment_service.py` -/

namespace PaymentMethodService

/-- `PaymentMethodService.get`: first row with the given primary key. -/
def get (db : List PaymentMethod) (id : Nat) : Option PaymentMethod :=
  db.find? (fun pm => pm.id == id)

/-- `PaymentMethodService.get_client_payment_methods`: filters on
`client_id` and `PaymentMethod.is_active is True` — the latter the
constant-`False` identity test (`column_is_True`). -/
def get_client_payment_methods (db : List PaymentMethod) (client_id : Nat) :
    List PaymentMethod :=
  db.filter (fun pm => pm.client_id == some client_id && column_is_True)

/-- `PaymentMethodService.get_default_payment_method`: filters on
`client_id`, `PaymentMethod.is_default is True` and
`PaymentMethod.is_active is True` (both constant-`False` identity tests)
and takes the first match. -/
def get_default_payment_method (db : List PaymentMethod) (client_id : Nat) :
    Option PaymentMethod :=
  (db.filter (fun pm =>
    pm.client_id == some client_id && column_is_True && column_is_True)).head?

/-- `PaymentMethodService.set_default_payment_method`: first an UPDATE
setting `is_default = False` on every row of this client other than the
target id, then the target row is fetched and, when found, marked default
and committed.  Returns the table after the call and the returned method
(`None` when the id resolves to no row, in which case the code returns the
`None` without committing). -/
def set_default_payment_method (db : List PaymentMethod)
    (payment_method_id client_id : Nat) : List PaymentMethod × Option PaymentMethod :=
  let db1 := db.map (fun pm =>
    if pm.client_id == some client_id && pm.id != payment_method_id then
      { pm with is_default := false }
    else pm)
  match get db1 payment_method_id with
  | none => (db1, none)
  | some pm =>
      let pm' := { pm with is_default := true }
      (db1.map (fun q => if q.id == payment_method_id then pm' else q), some pm')

end PaymentMethodService

/-! ## `services/meal_service.py` -/

namespace MealPlanService

/-- `MealPlanService.get_client_active_plan`: filters on `client_id`,
`MealPlan.is_active is True` (the constant-`False` identity test),
`start_date <= now` and (`end_date IS NULL` or `end_date >= now`), taking
the first match. -/
def get_client_active_plan (db : List MealPlan) (client_id : Nat) (now : Int) :
    Option MealPlan :=
  (db.filter (fun p =>
    p.client_id == some client_id && column_is_True &&
      sqlLe p.start_date now &&
      (p.end_date == none || sqlGe p.end_date now))).head?

end MealPlanService

/-! ## Helper lemmas

Database tables have a primary key: the list of `id`s is duplicate-free.
Looking a member up by its key then returns exactly that member. -/

/-- With duplicate-free keys, `find?` by a member's key returns that member. -/
theorem find_key_of_nodup {α : Type} (key : α → Nat) (l : List α) (a : α)
    (hmem : a ∈ l) (hnodup : (l.map key).Nodup) :
    l.find? (fun x => key x == key a) = some a := by
  induction l with
  | nil => cases hmem
  | cons x xs ih =>
    rw [List.map_cons, List.nodup_cons] at hnodup
    rcases List.mem_cons.mp hmem with rfl | hmem'
    · exact List.find?_cons_of_pos _ (by simp)
    · have hxa : key x ≠ key a := fun h =>
        hnodup.1 (h ▸ List.mem_map_of_mem key hmem')
      rw [List.find?_cons_of_neg _ (by simpa using hxa)]
      exact ih hmem' hnodup.2

/-- With duplicate-free keys, `filter` by a member's key returns exactly
that member. -/
theorem filter_key_of_nodup {α : Type} (key : α → Nat) (l : List α) (a : α)
    (hmem : a ∈ l) (hnodup : (l.map key).Nodup) :
    l.filter (fun x => key x == key a) = [a] := by
  induction l with
  | nil => cases hmem
  | cons x xs ih =>
    rw [List.map_cons, List.nodup_cons] at hnodup
    rcases List.mem_cons.mp hmem with rfl | hmem'
    · rw [List.filter_cons_of_pos (by simp), List.filter_eq_nil_iff.mpr]
      intro b hb hbeq
      exact hnodup.1 (eq_of_beq hbeq ▸ List.mem_map_of_mem key hb)
    · have hxa : key x ≠ key a := fun h =>
        hnodup.1 (h ▸ List.mem_map_of_mem key hmem')
      rw [List.filter_cons_of_neg (by simpa using hxa)]
      exact ih hmem' hnodup.2

/-! ## Claims -/

/-- C9: for every client id and every database state,
`get_client_payment_methods` returns the empty list and
`get_default_payment_method` returns `None`: both queries AND in the
Python identity comparisons `PaymentMethod.is_active is True` /
`PaymentMethod.is_default is True`, which evaluate to the constant `False`
before the query runs, so the matching set is empty regardless of the
stored rows. -/
theorem payment_method_read_queries_always_empty
    (db : List PaymentMethod) (client_id : Nat) :
    PaymentMethodService.get_client_payment_methods db client_id = [] ∧
    PaymentMethodService.get_default_payment_method db client_id = none := by
  constructor <;>
    simp [PaymentMethodService.get_client_payment_methods,
      PaymentMethodService.get_default_payment_method, column_is_True]

/-- C1: `get_workout_stats` never selects any row — the conjunct
`WorkoutLog.completed is True` is the constant `False`, so for every
database, client, window and clock the result is all-zero.  In particular
on thespec's example of three completed logs of durations 30/45/60 inside
the window it returns `total_duration_minutes = 0` and
`average_duration = 0` instead of the claimed 135 and 45. -/
theorem get_workout_stats_completed_identity_bug :
    (∀ (db : List WorkoutLog) (client_id days : Nat) (now : Int),
        WorkoutLogService.get_workout_stats db client_id days now =
          { total_workouts := 0, total_duration_minutes := 0,
            total_calories_burned := 0, average_duration := 0,
            workouts_per_week := 0 }) ∧
    WorkoutLogService.get_workout_stats
      [ { id := 1, client_id := some 1, date := some 95,
          duration_minutes := some 30, calories_burned := some 200,
          completed := true },
        { id := 2, client_id := some 1, date := some 96,
          duration_minutes := some 45, calories_burned := some 300,
          completed := true },
        { id := 3, client_id := some 1, date := some 97,
          duration_minutes := some 60, calories_burned := some 400,
          completed := true } ] 1 30 100 =
      { total_workouts := 0, total_duration_minutes := 0,
        total_calories_burned := 0, average_duration := 0,
        workouts_per_week := 0 } := by
  have h : ∀ (db : List WorkoutLog) (client_id days : Nat) (now : Int),
      WorkoutLogService.get_workout_stats db client_id days now =
        { total_workouts := 0, total_duration_minutes := 0,
          total_calories_burned := 0, average_duration := 0,
          workouts_per_week := 0 } := by
    intro db client_id days now
    simp [WorkoutLogService.get_workout_stats, column_is_True]
  exact ⟨h, h _ 1 30 100⟩

/-- C6: `get_client_active_plan` never matches any row — the conjunct
`MealPlan.is_active is True` is the constant `False`, so for every
database, client and clock the result is `None`, also on a plan with
`start_date ≤ now` and open-ended `end_date` that the claim says must be
returned. -/
theorem get_client_active_plan_identity_bug :
    (∀ (db : List MealPlan) (client_id : Nat) (now : Int),
        MealPlanService.get_client_active_plan db client_id now = none) ∧
    MealPlanService.get_client_active_plan
      [ { id := 1, name := "Cutting plan", trainer_id := some 1,
          client_id := some 1, start_date := some 0, end_date := none } ]
      1 10 = none := by
  constructor
  · intro db client_id now
    simp [MealPlanService.get_client_active_plan, column_is_True]
  · rfl

/-- C8: `get_overdue_goals` never matches any row — the conjuncts
`Goal.is_achieved is False` and `Goal.is_active is True` are the constant
`False`, so for every database, client and clock the result is the empty
list, also on a goal with `target_date < now`, `is_achieved = false` and
`is_active = true` that the claim says must be included. -/
theorem get_overdue_goals_identity_bug :
    (∀ (db : List Goal) (client_id : Nat) (now : Int),
        GoalService.get_overdue_goals db client_id now = []) ∧
    GoalService.get_overdue_goals
      [ { id := 1, client_id := some 1, title := "Lose 5 kg",
          target_date := some 5, is_achieved := false, is_active := true } ]
      1 10 = [] := by
  constructor
  · intro db client_id now
    simp [GoalService.get_overdue_goals, column_is_False]
  · rfl

/-- C10: when the goal id matches no stored goal, `mark_goal_achieved`
returns `None` and the table is unchanged — no goal's `is_achieved` or
`achieved_date` is modified and nothing is committed. -/
theorem mark_goal_achieved_absent_id_noop
    (db : List Goal) (goal_id : Nat) (now : Int)
    (h : GoalService.get db goal_id = none) :
    GoalService.mark_goal_achieved db goal_id now = (db, none) := by
  simp [GoalService.mark_goal_achieved, h]

/-- Witness for C10: a one-goal table and a non-matching id. -/
theorem mark_goal_achieved_absent_id_noop_witness :
    GoalService.get [ { id := 1, client_id := some 1, title := "Bench 100 kg" } ] 2 = none ∧
    GoalService.mark_goal_achieved
      [ { id := 1, client_id := some 1, title := "Bench 100 kg" } ] 2 50 =
      ([ { id := 1, client_id := some 1, title := "Bench 100 kg" } ], none) :=
  ⟨by decide, mark_goal_achieved_absent_id_noop _ 2 50 (by decide)⟩

/-- C3: the single-client read returns 404 when the id resolves to no row
(before any authorization outcome); on an existing row it succeeds for a
trainer caller exactly when the caller's trainer id matches
`client.trainer_id` and for a client caller exactly when the caller's user
id matches `client.user_id`, returning 403 on either mismatch. -/
theorem read_client_access_control (clients : List Client)
    (trainers : List Trainer) (u : User) (client_id : Nat) :
    (ClientService_get clients client_id = none →
        read_client clients trainers u client_id =
          ApiResult.error 404 "Client not found") ∧
    (∀ c, ClientService_get clients client_id = some c →
      (u.is_trainer = true →
        (c.trainer_id = (user_trainer trainers u).map Trainer.id →
            read_client clients trainers u client_id = ApiResult.ok c) ∧
        (c.trainer_id ≠ (user_trainer trainers u).map Trainer.id →
            read_client clients trainers u client_id =
              ApiResult.error 403 "Access denied")) ∧
      (u.is_trainer = false →
        (c.user_id = some u.id →
            read_client clients trainers u client_id = ApiResult.ok c) ∧
        (c.user_id ≠ some u.id →
            read_client clients trainers u client_id =
              ApiResult.error 403 "Access denied"))) := by
  refine ⟨fun h => by simp [read_client, h], fun c hc => ⟨fun ht => ⟨?_, ?_⟩, fun hf => ⟨?_, ?_⟩⟩⟩
  · intro he; simp [read_client, hc, ht, he]
  · intro hne; simp [read_client, hc, ht, hne]
  · intro he; simp [read_client, hc, hf, he]
  · intro hne; simp [read_client, hc, hf, hne]

/-- Witness for C3: a one-client table read by its owning trainer
succeeds. -/
theorem read_client_access_control_witness :
    read_client [ { id := 1, user_id := some 5, trainer_id := some 3 } ]
      [ { id := 3, user_id := 2 } ]
      { id := 2, email := "trainer@x.com", hashed_password := "h",
        is_trainer := true } 1 =
      ApiResult.ok { id := 1, user_id := some 5, trainer_id := some 3 } :=
  ((read_client_access_control _ _ _ 1).2 _ (by decide)).1 (by decide) |>.1 (by decide)

/-- C4: the account-active flag is checked only at login: login fails with
400 "Inactive user" when the authenticated account is inactive, while
`get_current_user` on a valid token subject that resolves to a
deactivated account still returns the account record, not 401. -/
theorem is_active_checked_only_at_login (users : List User)
    (email password subject : String) (u v : User)
    (hauth : UserService.authenticate users email password = some u)
    (hu : u.is_active = false)
    (hfind : UserService.get_by_email users subject = some v)
    (hv : v.is_active = false) :
    login users email password = ApiResult.error 400 "Inactive user" ∧
    get_current_user users (some subject) = ApiResult.ok v := by
  constructor
  · simp [login, hauth, hu]
  · simp [get_current_user, hfind]

/-- Witness for C4: one deactivated account with a valid password and a
valid token subject. -/
theorem is_active_checked_only_at_login_witness :
    login [ { id := 1, email := "a@x.com",
              hashed_password := get_password_hash "pw",
              is_active := false } ] "a@x.com" "pw" =
        ApiResult.error 400 "Inactive user" ∧
    get_current_user [ { id := 1, email := "a@x.com",
                         hashed_password := get_password_hash "pw",
                         is_active := false } ] (some "a@x.com") =
        ApiResult.ok { id := 1, email := "a@x.com",
                       hashed_password := get_password_hash "pw",
                       is_active := false } :=
  is_active_checked_only_at_login
    [ { id := 1, email := "a@x.com", hashed_password := get_password_hash "pw",
        is_active := false } ]
    "a@x.com" "pw" "a@x.com"
    { id := 1, email := "a@x.com", hashed_password := get_password_hash "pw",
      is_active := false }
    { id := 1, email := "a@x.com", hashed_password := get_password_hash "pw",
      is_active := false }
    (by decide) (by decide) (by decide) (by decide)

/-- C5: after a first successful registration, a second `register` call
with the very same email (exact, case-sensitive string comparison, no
normalization) fails with the duplicate-email error — the spec's Conflict
category — and returns the table unchanged: the first account's record is
untouched and no user is created. -/
theorem register_duplicate_email (users : List User)
    (r1 r2 : UserService.UserRegister)
    (hfresh : UserService.get_by_email users r1.email = none)
    (hsame : r2.email = r1.email) :
    (register users r1).2 = ApiResult.ok (UserService.create users r1).2 ∧
    register (register users r1).1 r2 =
      ((register users r1).1,
        ApiResult.error 400 "User with this email already exists") := by
  have h1 : register users r1 =
      ((UserService.create users r1).1, ApiResult.ok (UserService.create users r1).2) := by
    simp [register, hfresh]
  have h2 : UserService.get_by_email (UserService.create users r1).1 r2.email =
      some (UserService.create users r1).2 := by
    simp only [UserService.create, UserService.get_by_email] at hfresh ⊢
    simp only [hsame, List.find?_append, hfresh]
    simp
  refine ⟨by rw [h1], ?_⟩
  rw [h1]
  simp [register, h2]

/-- Witness for C5: registering the same mixed-case email twice on an
empty table. -/
theorem register_duplicate_email_witness :
    (register []
        { email := "User@Example.com", password := "pw1", full_name := "A" }).2 =
      ApiResult.ok (UserService.create []
        { email := "User@Example.com", password := "pw1", full_name := "A" }).2 ∧
    register (register []
        { email := "User@Example.com", password := "pw1", full_name := "A" }).1
        { email := "User@Example.com", password := "pw2", full_name := "B" } =
      ((register []
          { email := "User@Example.com", password := "pw1", full_name := "A" }).1,
        ApiResult.error 400 "User with this email already exists") :=
  register_duplicate_email []
    { email := "User@Example.com", password := "pw1", full_name := "A" }
    { email := "User@Example.com", password := "pw2", full_name := "B" }
    (by decide) (by decide)

/-- C7: `mark_goal_achieved` on an existing goal sets `is_achieved` and
stamps `achieved_date` with the call's clock, leaving every other field
unchanged and without comparing `current_value` to `target_value` (no such
hypothesis is needed); a second call on the resulting table re-stamps
`achieved_date` with the second call's clock and keeps `is_achieved`. -/
theorem mark_goal_achieved_stamps_and_restamps
    (db : List Goal) (g : Goal) (t1 t2 : Int)
    (hmem : g ∈ db) (hnodup : (db.map Goal.id).Nodup) :
    (GoalService.mark_goal_achieved db g.id t1).2 =
        some { g with is_achieved := true, achieved_date := some t1 } ∧
    (GoalService.mark_goal_achieved
        (GoalService.mark_goal_achieved db g.id t1).1 g.id t2).2 =
        some { g with is_achieved := true, achieved_date := some t2 } := by
  have hstep : ∀ (l : List Goal) (gid : Nat) (t : Int) (x : Goal),
      GoalService.get l gid = some x →
      GoalService.mark_goal_achieved l gid t =
        (l.map (fun q => if q.id == gid then
            { q with is_achieved := true, achieved_date := some t } else q),
         some { x with is_achieved := true, achieved_date := some t }) := by
    intro l gid t x hx
    simp only [GoalService.mark_goal_achieved]
    rw [hx]
  have h1 : GoalService.get db g.id = some g := by
    unfold GoalService.get
    exact find_key_of_nodup Goal.id db g hmem hnodup
  have hc1 := hstep db g.id t1 g h1
  have hkeep : ∀ q : Goal,
      ((if q.id == g.id then
          { q with is_achieved := true, achieved_date := some t1 }
        else q) : Goal).id = q.id := by
    intro q; split <;> rfl
  have hids : ((db.map (fun q => if q.id == g.id then
      { q with is_achieved := true, achieved_date := some t1 } else q)).map
        Goal.id) = db.map Goal.id := by
    rw [List.map_map]
    exact List.map_congr_left fun q _ => hkeep q
  have hmem1 : ({ g with is_achieved := true, achieved_date := some t1 } : Goal) ∈
      db.map (fun q => if q.id == g.id then
        { q with is_achieved := true, achieved_date := some t1 } else q) := by
    have h := List.mem_map_of_mem (fun q => if q.id == g.id then
      ({ q with is_achieved := true, achieved_date := some t1 } : Goal) else q) hmem
    simpa using h
  have h2 : GoalService.get
      (db.map (fun q => if q.id == g.id then
        { q with is_achieved := true, achieved_date := some t1 } else q)) g.id =
      some { g with is_achieved := true, achieved_date := some t1 } := by
    unfold GoalService.get
    have h := find_key_of_nodup Goal.id _
      ({ g with is_achieved := true, achieved_date := some t1 } : Goal) hmem1
      (by rw [hids]; exact hnodup)
    simpa using h
  have hfst : (GoalService.mark_goal_achieved db g.id t1).1 =
      db.map (fun q => if q.id == g.id then
        { q with is_achieved := true, achieved_date := some t1 } else q) := by
    rw [hc1]
  have h3 := hstep _ g.id t2 _ h2
  refine ⟨by rw [hc1], ?_⟩
  rw [hfst, h3]

/-- Witness for C7: a one-goal table, current value short of the target,
stamped at 50 then re-stamped at 60. -/
theorem mark_goal_achieved_stamps_and_restamps_witness :
    (GoalService.mark_goal_achieved
        [ { id := 7, client_id := some 1, title := "Run 10 km",
            target_value := some 10, current_value := some 3 } ] 7 50).2 =
      some { id := 7, client_id := some 1, title := "Run 10 km",
             target_value := some 10, current_value := some 3,
             is_achieved := true, achieved_date := some 50 } ∧
    (GoalService.mark_goal_achieved
        (GoalService.mark_goal_achieved
          [ { id := 7, client_id := some 1, title := "Run 10 km",
              target_value := some 10, current_value := some 3 } ] 7 50).1
        7 60).2 =
      some { id := 7, client_id := some 1, title := "Run 10 km",
             target_value := some 10, current_value := some 3,
             is_achieved := true, achieved_date := some 60 } :=
  mark_goal_achieved_stamps_and_restamps
    [ { id := 7, client_id := some 1, title := "Run 10 km",
        target_value := some 10, current_value := some 3 } ]
    { id := 7, client_id := some 1, title := "Run 10 km",
      target_value := some 10, current_value := some 3 }
    50 60 (by decide) (by decide)

/-- C2: for a client with some default method already stored, setting
method B of that client as default clears the flag on every other method
of the client and sets it on B, so afterwards B is the client's unique
default method — never zero, never two — and B is returned marked
default. -/
theorem set_default_payment_method_single_default
    (db : List PaymentMethod) (pm : PaymentMethod) (client_id : Nat)
    (hmem : pm ∈ db) (hcid : pm.client_id = some client_id)
    (hnodup : (db.map PaymentMethod.id).Nodup)
    (hprior : ∃ a ∈ db, a.client_id = some client_id ∧ a.is_default = true) :
    ((PaymentMethodService.set_default_payment_method db pm.id client_id).1.filter
        (fun q => q.client_id == some client_id && q.is_default)).map
        PaymentMethod.id = [pm.id] ∧
    (PaymentMethodService.set_default_payment_method db pm.id client_id).2 =
      some { pm with is_default := true } := by
  have hclear_id : ∀ q : PaymentMethod,
      ((if q.client_id == some client_id && q.id != pm.id then
          { q with is_default := false }
        else q) : PaymentMethod).id = q.id := by
    intro q; split <;> rfl
  have hclear_pm :
      ((if pm.client_id == some client_id && pm.id != pm.id then
          { pm with is_default := false }
        else pm) : PaymentMethod) = pm := by
    simp
  have hids : ((db.map (fun q =>
      if q.client_id == some client_id && q.id != pm.id then
        { q with is_default := false }
      else q)).map PaymentMethod.id) = db.map PaymentMethod.id := by
    rw [List.map_map]
    exact List.map_congr_left fun q _ => hclear_id q
  have hmem1 : pm ∈ db.map (fun q =>
      if q.client_id == some client_id && q.id != pm.id then
        { q with is_default := false }
      else q) := by
    have h := List.mem_map_of_mem (fun q =>
      if q.client_id == some client_id && q.id != pm.id then
        ({ q with is_default := false } : PaymentMethod)
      else q) hmem
    simpa only [hclear_pm] using h
  have hfind : PaymentMethodService.get (db.map (fun q =>
      if q.client_id == some client_id && q.id != pm.id then
        { q with is_default := false }
      else q)) pm.id = some pm := by
    unfold PaymentMethodService.get
    exact find_key_of_nodup PaymentMethod.id _ pm hmem1 (by rw [hids]; exact hnodup)
  have hres : PaymentMethodService.set_default_payment_method db pm.id client_id =
      ((db.map (fun q =>
          if q.client_id == some client_id && q.id != pm.id then
            { q with is_default := false }
          else q)).map (fun q =>
          if q.id == pm.id then { pm with is_default := true } else q),
        some { pm with is_default := true }) := by
    simp only [PaymentMethodService.set_default_payment_method]
    rw [hfind]
  have hT : (PaymentMethodService.set_default_payment_method db pm.id client_id).1 =
      db.map ((fun q : PaymentMethod =>
          if q.id == pm.id then { pm with is_default := true } else q) ∘
        (fun q : PaymentMethod =>
          if q.client_id == some client_id && q.id != pm.id then
            { q with is_default := false }
          else q)) := by
    rw [hres, List.map_map]
  have hpred : ∀ q ∈ db,
      ((fun q : PaymentMethod => q.client_id == some client_id && q.is_default) ∘
        ((fun q : PaymentMethod =>
            if q.id == pm.id then { pm with is_default := true } else q) ∘
          (fun q : PaymentMethod =>
            if q.client_id == some client_id && q.id != pm.id then
              { q with is_default := false }
            else q))) q = (q.id == pm.id) := by
    intro q _
    by_cases hq : q.id = pm.id
    · have l2 : (q.id == pm.id) = true := beq_iff_eq.mpr hq
      have l1 : (pm.client_id == some client_id) = true := beq_iff_eq.mpr hcid
      simp [Function.comp, bne, hq, l1, l2]
    · have l2 : (q.id == pm.id) = false := beq_eq_false_iff_ne.mpr hq
      by_cases hc : q.client_id = some client_id
      · have l1 : (q.client_id == some client_id) = true := beq_iff_eq.mpr hc
        simp [Function.comp, bne, l1, l2]
      · have l1 : (q.client_id == some client_id) = false :=
          beq_eq_false_iff_ne.mpr hc
        simp [Function.comp, bne, l1, l2]
  refine ⟨?_, by rw [hres]⟩
  rw [hT, List.filter_map, List.filter_congr hpred,
    filter_key_of_nodup PaymentMethod.id db pm hmem hnodup]
  simp [Function.comp]

/-- Witness for C2: client 9 owns method 1 (currently default) and method
2; setting method 2 as default leaves exactly method 2 flagged. -/
theorem set_default_payment_method_single_default_witness :
    ((PaymentMethodService.set_default_payment_method
        [ { id := 1, client_id := some 9, is_default := true },
          { id := 2, client_id := some 9, card_brand := some "visa" } ] 2 9).1.filter
        (fun q => q.client_id == some 9 && q.is_default)).map
        PaymentMethod.id = [2] ∧
    (PaymentMethodService.set_default_payment_method
        [ { id := 1, client_id := some 9, is_default := true },
          { id := 2, client_id := some 9, card_brand := some "visa" } ] 2 9).2 =
      some { id := 2, client_id := some 9, card_brand := some "visa",
             is_default := true } :=
  set_default_payment_method_single_default
    [ { id := 1, client_id := some 9, is_default := true },
      { id := 2, client_id := some 9, card_brand := some "visa" } ]
    { id := 2, client_id := some 9, card_brand := some "visa" } 9
    (by decide) (by decide) (by decide)
    ⟨{ id := 1, client_id := some 9, is_default := true }, by decide, by decide, by decide⟩

end FitnessPr
